import Mathlib

/-
  Verification of the gcoap forward proxy
  (sys/net/application_layer/gcoap/forward_proxy.c).

  The development shallowly embeds the proxy's own logic.  External
  collaborators (the CoAP codec, the UDP sockets, the URI parsing
  routine, the nanocoap cache storage, the engine's memo table, the
  clock) are represented by oracle fields of an environment record,
  exactly as the C file consumes their results.  CoAP options are
  lists of (option number, value bytes); packets keep the fields the
  proxy reads.  Machine integers stay in Nat/Int: none of the modelled
  arithmetic can overflow its C type on the modelled inputs.
-/

namespace ForwardProxy

/-! ### CoAP constants (values from RFC 7252 / RIOT headers) -/

def COAP_OPT_ETAG : Nat := 4
def COAP_OPT_URI_PATH : Nat := 11
def COAP_OPT_CONTENT_FORMAT : Nat := 12
def COAP_OPT_MAX_AGE : Nat := 14
def COAP_OPT_URI_QUERY : Nat := 15
def COAP_OPT_PROXY_URI : Nat := 35

/-- 2.03 Valid = (2 shl 5) + 3 -/
def COAP_CODE_VALID : Nat := 67
/-- 4.02 Bad Option = (4 shl 5) + 2 -/
def COAP_CODE_BAD_OPTION : Nat := 130
/-- 5.00 Internal Server Error = (5 shl 5) + 0 -/
def COAP_CODE_INTERNAL_SERVER_ERROR : Nat := 160
/-- 5.05 Proxying Not Supported = (5 shl 5) + 5 -/
def COAP_CODE_PROXYING_NOT_SUPPORTED : Nat := 165

def COAP_METHOD_GET : Nat := 1
def COAP_METHOD_FETCH : Nat := 5

/-! ### errno values (newlib / RIOT) -/

def EPERM : Int := 1
def ENOENT : Int := 2
def ENOMEM : Int := 12
def EINVAL : Int := 22

/-! ### Data model -/

/-- One CoAP option: its number and its value bytes. -/
structure CoapOption where
  num : Nat
  val : List Nat
  deriving DecidableEq, Repr

/-- The fields of a coap_pkt_t that the proxy reads. -/
structure CoapPkt where
  /-- hdr->code (for inbound requests: the request method). -/
  code : Nat
  /-- token length from ver_t_tkl. -/
  tokenLen : Nat
  /-- the packet's options in the order coap_opt_get_next yields them. -/
  options : List CoapOption
  payload : List Nat
  deriving DecidableEq, Repr

/-- client_ep_t: one slot of the fixed client-endpoint table. -/
structure client_ep_t where
  in_use : Bool
  validating : Bool
  /-- the client's transport address, abstracted to an identifier. -/
  ep : Nat
  cache_key : List Nat
  deriving DecidableEq, Repr

/-- A slot after memset 0 (_free_client_ep zeroes the struct). -/
def zeroed_ep : client_ep_t := ⟨false, false, 0, []⟩

/-- nanocoap_cache_entry_t, external to the file: the fields the proxy
reads.  The cached response is kept as header length + the bytes after
the header (so response_len = response_hdr_len + response_tail.length),
plus the result of coap_opt_get_opaque(&response_pkt, COAP_OPT_ETAG, _)
(none when the cached response has no ETag option). -/
structure nanocoap_cache_entry_t where
  request_method : Nat
  /-- absolute freshness deadline in seconds. -/
  max_age : Nat
  /-- response_pkt.hdr->code. -/
  response_code : Nat
  response_etag : Option (List Nat)
  response_hdr_len : Nat
  response_tail : List Nat
  deriving DecidableEq, Repr

/-- The uri_parser result fields the proxy reads after parsing the
Proxy-Uri (host/port/zoneid are consumed only by _parse_endpoint,
which is an oracle here). -/
structure uri_result_t where
  scheme : List Char
  path : List Char
  /-- none when urip->query == NULL. -/
  query : Option (List Char)
  deriving DecidableEq, Repr

/-! ### External codec helpers, modelled as the proxy uses them -/

/-- coap_get_total_hdr_len: 4 fixed header bytes plus the token. -/
def coap_get_total_hdr_len (pkt : CoapPkt) : Nat := 4 + pkt.tokenLen

/-- coap_get_code on a request: the method code. -/
def coap_get_code (pkt : CoapPkt) : Nat := pkt.code

/-- coap_opt_get_opaque for ETag on a packet: value of the first ETag
option, if any. -/
def coap_opt_get_opaque_etag (opts : List CoapOption) : Option (List Nat) :=
  (opts.find? (fun o => o.num = COAP_OPT_ETAG)).map (fun o => o.val)

/-- C strncmp on NUL-terminated byte strings, with list end playing the
role of the terminator (scheme tokens contain no NUL byte). -/
def strncmp : List Char → List Char → Nat → Int
  | _, _, 0 => 0
  | [], [], _ + 1 => 0
  | [], c :: _, _ + 1 => 0 - (c.toNat : Int)
  | c :: _, [], _ + 1 => (c.toNat : Int)
  | c1 :: t1, c2 :: t2, n + 1 =>
    if c1 = c2 then strncmp t1 t2 n
    else (c1.toNat : Int) - (c2.toNat : Int)

def coapChars : List Char := ['c', 'o', 'a', 'p']

/-- split a character buffer at a separator character. -/
def split_on_char (sep : Char) : List Char → List Char → List (List Char)
  | [], acc => [acc.reverse]
  | c :: rest, acc =>
    if c = sep then acc.reverse :: split_on_char sep rest []
    else split_on_char sep rest (c :: acc)

/-- coap_opt_add_chars: adds one option numbered optnum per non-empty
substring of the buffer split at the separator.  The model's buffer is
unbounded, so the -ENOSPC overflow failure of the C helper cannot
occur here. -/
def coap_opt_add_chars (optnum : Nat) (chars : List Char) (sep : Char) :
    List CoapOption :=
  ((split_on_char sep chars []).filter (fun s => s ≠ [])).map
    (fun s => ⟨optnum, s.map Char.toNat⟩)

/-! ### Option rewriter -/

/-- _gcoap_forward_proxy_add_uri_path: Uri-Path segments from the
parsed path (split at slashes), then Uri-Query segments (split at
ampersands) when a query is present. -/
def _gcoap_forward_proxy_add_uri_path (urip : uri_result_t) : List CoapOption :=
  coap_opt_add_chars COAP_OPT_URI_PATH urip.path '/' ++
    (match urip.query with
     | some q => coap_opt_add_chars COAP_OPT_URI_QUERY q '&'
     | none => [])

/-- The rewriter's loop state: the two latches, the slot's validating
flag, and the options emitted so far into the outbound packet. -/
structure RewriteState where
  etag_added : Bool
  uri_path_added : Bool
  validating : Bool
  out : List CoapOption
  deriving DecidableEq, Repr

/-- The leading block of the loop body: before any option whose number
is at least ETAG, and only once, insert the cache entry's ETag when
the cache is compiled in, a cache entry is at hand, and
coap_opt_get_opaque found an ETag of positive length in the cached
response (the latch is set even when it found none). -/
def copy_etag_phase (cacheUsed : Bool)
    (ce : Option nanocoap_cache_entry_t) (s : RewriteState)
    (o : CoapOption) : RewriteState :=
  if s.etag_added = false ∧ COAP_OPT_ETAG ≤ o.num then
    match cacheUsed, ce with
    | true, some c =>
      match c.response_etag with
      | some etag =>
        if 0 < etag.length then
          { s with out := s.out ++ [⟨COAP_OPT_ETAG, etag⟩],
                   etag_added := true }
        else { s with etag_added := true }
      | none => { s with etag_added := true }
    | _, _ => s
  else s

/-- The one-shot Uri-Path/Uri-Query insertion block: before the first
option whose number exceeds URI_PATH, splice in the path and query
options built from the parsed URI and set the latch. -/
def copy_uri_path_phase (urip : uri_result_t) (s : RewriteState)
    (o : CoapOption) : RewriteState :=
  if s.uri_path_added = false ∧ COAP_OPT_URI_PATH < o.num then
    { s with out := s.out ++ _gcoap_forward_proxy_add_uri_path urip,
             uri_path_added := true }
  else s

/-- One iteration of the loop body of _gcoap_forward_proxy_copy_options
over the next inbound option o (the optlen >= 0 case: the model's
iteration yields every option of a well-formed packet): the ETag
block, then the skip of the client's own ETag (recording validating),
then the one-shot Uri-Path/Uri-Query insertion, the Proxy-Uri skip,
and the verbatim copy. -/
def copy_options_step (cacheUsed : Bool) (urip : uri_result_t)
    (ce : Option nanocoap_cache_entry_t) (s : RewriteState)
    (o : CoapOption) : RewriteState :=
  let s1 := copy_etag_phase cacheUsed ce s o
  if o.num = COAP_OPT_ETAG then
    { s1 with validating := true }
  else
    let s2 := copy_uri_path_phase urip s1 o
    if o.num = COAP_OPT_PROXY_URI then s2
    else { s2 with out := s2.out ++ [o] }

/-- _gcoap_forward_proxy_copy_options: fold the loop body over the
inbound options, starting from cleared latches, the slot's current
validating flag v0, and an empty outbound option list.  (The trailing
coap_opt_finish and the byte-exact payload copy do not touch the
option sequence and are elided; the returned length is not modelled.) -/
def _gcoap_forward_proxy_copy_options (cacheUsed : Bool)
    (client_opts : List CoapOption) (urip : uri_result_t)
    (ce : Option nanocoap_cache_entry_t) (v0 : Bool) : RewriteState :=
  client_opts.foldl (copy_options_step cacheUsed urip ce)
    ⟨false, false, v0, []⟩

/-- The option numbers of an option list, in emission order. -/
def optNums (l : List CoapOption) : List Nat := l.map (fun o => o.num)

/-- Non-decreasing (CoAP ascending-option-number wire order). -/
def nondecreasing : List Nat → Bool
  | [] => true
  | [_] => true
  | a :: b :: rest => decide (a ≤ b) && nondecreasing (b :: rest)

/-! ### Cache interaction -/

/-- A client-facing response as the proxy assembles it: the code, the
ETag option it adds (2.03 Valid case), the option/payload bytes it
splices in from the cache, and the signed length it returns. -/
structure BuiltResp where
  code : Nat
  etag : Option (List Nat)
  tail : List Nat
  len : Int
  deriving DecidableEq, Repr

/-- _cache_build_response: for a GET/FETCH whose request ETag matches
the cached response's ETag, a 2.03 Valid echoing the request ETag
(the C function returns only the header length there); otherwise the
cached code with the cached option/payload bytes spliced after the
fresh header. -/
def _cache_build_response (ce : nanocoap_cache_entry_t) (pdu : CoapPkt) :
    BuiltResp :=
  let hdr := coap_get_total_hdr_len pdu
  let validCase : Option BuiltResp :=
    if pdu.code = COAP_METHOD_GET ∨ pdu.code = COAP_METHOD_FETCH then
      match coap_opt_get_opaque_etag pdu.options with
      | some req_etag =>
        if 0 < req_etag.length ∧ ce.response_etag = some req_etag then
          some ⟨COAP_CODE_VALID, some req_etag, [], (hdr : Int)⟩
        else none
      | none => none
    else none
  match validCase with
  | some r => r
  | none =>
    ⟨ce.response_code, none, ce.response_tail,
     (hdr : Int) + (ce.response_tail.length : Int)⟩

/-- Result record of _cache_lookup_and_process: the returned length,
the slot (whose cache_key is written on a miss), the entry handed back
through the ce out-parameter, and the built response on a hit. -/
structure CacheLookupOut where
  pdu_len : Int
  cep : client_ep_t
  ce : Option nanocoap_cache_entry_t
  resp : Option BuiltResp
  deriving DecidableEq, Repr

/-- _cache_lookup_and_process.  now is ztimer_now, cache_key the digest
nanocoap_cache_key_generate computes for the pdu, ce_lookup the result
of nanocoap_cache_key_lookup on that digest. -/
def _cache_lookup_and_process (now : Nat) (cache_key : List Nat)
    (ce_lookup : Option nanocoap_cache_entry_t) (pdu : CoapPkt)
    (cep : client_ep_t) : CacheLookupOut :=
  match ce_lookup with
  | some c =>
    if c.request_method = coap_get_code pdu ∧ now < c.max_age then
      ⟨(_cache_build_response c pdu).len, cep, some c,
       some (_cache_build_response c pdu)⟩
    else ⟨0, { cep with cache_key := cache_key }, some c, none⟩
  | none => ⟨0, { cep with cache_key := cache_key }, none, none⟩

/-! ### Client endpoint table -/

/-- _allocate_client_ep: scan the table left to right, claim the first
slot with in_use = false (set in_use, clear validating, store the
client endpoint; the slot's cache_key bytes are left as they are).
Returns the updated table, the claimed index and the claimed slot's
value (the C function returns a pointer to it), or none when every
slot is in use. -/
def _allocate_client_ep : List client_ep_t → Nat →
    Option (List client_ep_t × Nat × client_ep_t)
  | [], _ => none
  | cep :: rest, ep =>
    if cep.in_use = false then
      some (⟨true, false, ep, cep.cache_key⟩ :: rest, 0,
            ⟨true, false, ep, cep.cache_key⟩)
    else
      match _allocate_client_ep rest ep with
      | some (rest1, i, c) => some (cep :: rest1, i + 1, c)
      | none => none

/-- _free_client_ep: memset the slot at index i to zero. -/
def _free_client_ep (eps : List client_ep_t) (i : Nat) : List client_ep_t :=
  eps.set i zeroed_ep

/-! ### Environment: the external collaborators' behaviour for one
inbound request dispatch -/

structure ProcEnv where
  /-- IS_USED(MODULE_NANOCOAP_CACHE). -/
  cacheUsed : Bool
  /-- ztimer_now(ZTIMER_SEC). -/
  now : Nat
  /-- nanocoap_cache_key_generate's digest of the request. -/
  cache_key : List Nat
  /-- nanocoap_cache_key_lookup on that digest. -/
  ce_lookup : Option nanocoap_cache_entry_t
  /-- coap_get_proxy_uri: ok when the option is present (positive
  length), error (-ENOENT / -EINVAL) otherwise. -/
  proxy_uri : Except Int Unit
  /-- uri_parser_process: none when it rejects the string. -/
  urip : Option uri_result_t
  /-- uri_parser_is_absolute. -/
  is_absolute : Bool
  /-- _parse_endpoint (IPv6 literal, zone id, port checks). -/
  endpoint_ok : Bool
  /-- gcoap_forward_proxy_find_req_memo found an in-flight memo for
  the same (client packet, origin endpoint) pair. -/
  memo_exists : Bool
  /-- gcoap_req_send's return value. -/
  send_result : Int

/-- What one request dispatch produced: the handler-visible return,
the client endpoint table afterwards, whether gcoap_req_send was
invoked (an upstream send), and the cache-built client response when
one was produced. -/
structure ProcOut where
  ret : Int
  eps : List client_ep_t
  sent : Bool
  resp : Option BuiltResp
  deriving DecidableEq, Repr

/-- _gcoap_forward_proxy_via_coap, after the header/token copy (which
only duplicates inbound header fields): resolve the origin endpoint,
drop duplicates already memoized, rewrite the options (which updates
the slot's validating flag) and submit to gcoap_req_send. -/
def _gcoap_forward_proxy_via_coap (env : ProcEnv) (client_pkt : CoapPkt)
    (urip : uri_result_t) (ce : Option nanocoap_cache_entry_t)
    (eps : List client_ep_t) (i : Nat) (cep : client_ep_t) :
    Int × List client_ep_t × Bool :=
  if env.endpoint_ok = false then (0 - EINVAL, eps, false)
  else if env.memo_exists = true then ((0 : Int), _free_client_ep eps i, false)
  else
    let rw := _gcoap_forward_proxy_copy_options env.cacheUsed
      client_pkt.options urip ce cep.validating
    (env.send_result, eps.set i { cep with validating := rw.validating }, true)

/-- The tail of gcoap_forward_proxy_request_process after the cache
stage: fetch and parse the Proxy-Uri, check the scheme, forward.
eps2/cep are the table and slot after the cache stage. -/
def _proxy_stage (env : ProcEnv) (pkt : CoapPkt)
    (ce : Option nanocoap_cache_entry_t) (eps2 : List client_ep_t)
    (i : Nat) (cep : client_ep_t) : ProcOut :=
  match env.proxy_uri with
  | Except.error e => ⟨e, _free_client_ep eps2 i, false, none⟩
  | Except.ok _ =>
    match env.urip with
    | none => ⟨0 - EINVAL, _free_client_ep eps2 i, false, none⟩
    | some urip =>
      if env.is_absolute = false then
        ⟨0 - EINVAL, _free_client_ep eps2 i, false, none⟩
      else if strncmp coapChars urip.scheme urip.scheme.length = 0 then
        let r := _gcoap_forward_proxy_via_coap env pkt urip ce eps2 i cep
        if r.1 < 0 then ⟨0 - EINVAL, _free_client_ep r.2.1 i, r.2.2, none⟩
        else ⟨0, r.2.1, r.2.2, none⟩
      else ⟨0 - EPERM, _free_client_ep eps2 i, false, none⟩

/-- gcoap_forward_proxy_request_process: allocate a slot (reply -ENOMEM
when the table is full), consult the cache when compiled in (a fresh,
method-matching entry short-circuits to the cache-built response and
releases the slot), then parse and forward. -/
def gcoap_forward_proxy_request_process (env : ProcEnv) (pkt : CoapPkt)
    (client : Nat) (eps : List client_ep_t) : ProcOut :=
  match _allocate_client_ep eps client with
  | none => ⟨0 - ENOMEM, eps, false, none⟩
  | some (eps1, i, cep0) =>
    if env.cacheUsed = true then
      let cl := _cache_lookup_and_process env.now env.cache_key
        env.ce_lookup pkt cep0
      if 0 < cl.pdu_len then
        ⟨cl.pdu_len, _free_client_ep (eps1.set i cl.cep) i, false, cl.resp⟩
      else
        _proxy_stage env pkt cl.ce (eps1.set i cl.cep) i cl.cep
    else
      _proxy_stage env pkt none eps1 i cep0

/-- What _forward_proxy_handler hands back to the engine: a synthesized
response with the given code, or the raw signed length from request
processing. -/
inductive HandlerOut
  | resp (code : Nat)
  | raw (len : Int)
  deriving DecidableEq, Repr

/-- _forward_proxy_handler: run request processing and map -ENOMEM to
5.00, -EINVAL to 4.02 and -EPERM to 5.05; any other value is returned
to the engine as is. -/
def _forward_proxy_handler (env : ProcEnv) (pkt : CoapPkt) (client : Nat)
    (eps : List client_ep_t) : HandlerOut × List client_ep_t × Bool :=
  let r := gcoap_forward_proxy_request_process env pkt client eps
  if r.ret = 0 - ENOMEM then
    (HandlerOut.resp COAP_CODE_INTERNAL_SERVER_ERROR, r.eps, r.sent)
  else if r.ret = 0 - EINVAL then
    (HandlerOut.resp COAP_CODE_BAD_OPTION, r.eps, r.sent)
  else if r.ret = 0 - EPERM then
    (HandlerOut.resp COAP_CODE_PROXYING_NOT_SUPPORTED, r.eps, r.sent)
  else (HandlerOut.raw r.ret, r.eps, r.sent)

/-- _request_matcher_forward_proxy: the catch-all resource matches iff
coap_get_proxy_uri returns a positive length. -/
def _request_matcher_forward_proxy (env : ProcEnv) : Bool :=
  match env.proxy_uri with
  | Except.ok _ => true
  | Except.error _ => false

/-! ### Response handler -/

/-- gcoap memo states as the response handler distinguishes them. -/
inductive MemoState
  | resp
  | timedOut
  | err
  deriving DecidableEq, Repr

/-- The external collaborators' behaviour for one upstream-response
dispatch. -/
structure RespEnv where
  /-- IS_USED(MODULE_NANOCOAP_CACHE). -/
  cacheUsed : Bool
  /-- memo->state. -/
  memo_state : MemoState
  /-- pdu->hdr->code of the origin's response. -/
  resp_code : Nat
  /-- the response's Max-Age option (coap_opt_get_uint leaves the
  preset 60 untouched when the option is absent). -/
  max_age_opt : Option Nat
  /-- ztimer_now(ZTIMER_SEC). -/
  now : Nat
  /-- nanocoap_cache_key_lookup on the slot's cache_key. -/
  ce_lookup : Option nanocoap_cache_entry_t
  /-- coap_get_code of the memoized request. -/
  req_method : Nat

/-- What was dispatched to the client, if anything. -/
inductive Dispatch
  /-- the origin's response bytes forwarded unchanged. -/
  | verbatim
  /-- a response rebuilt from the cache entry: its code and its
  option/payload bytes. -/
  | fromCache (code : Nat) (tail : List Nat)
  deriving DecidableEq, Repr

/-- Effects of one _forward_resp_handler invocation. -/
structure RespOut where
  dispatch : Option Dispatch
  /-- nanocoap_cache_process was invoked. -/
  cache_processed : Bool
  /-- the absolute deadline written to ce->max_age, when the
  revalidation path updates it. -/
  new_max_age : Option Nat
  /-- the slot afterwards (always memset to zero). -/
  cep : client_ep_t
  deriving DecidableEq, Repr

/-- _forward_resp_handler: on a received response, forward it verbatim
unless it is a 2.03 Valid answering a proxy-initiated revalidation; in
that case refresh the entry's max_age (Max-Age option, default 60) and
re-send the cached content, or drop the exchange when the entry has
been evicted.  Every other received response goes through
nanocoap_cache_process when the cache is compiled in.  The slot is
always released. -/
def _forward_resp_handler (env : RespEnv) (cep : client_ep_t) : RespOut :=
  if env.memo_state = MemoState.resp then
    let d1 : Option Dispatch :=
      if env.cacheUsed = false ∨ env.resp_code ≠ COAP_CODE_VALID ∨
          cep.validating = true then
        some Dispatch.verbatim
      else none
    if env.cacheUsed = true then
      if env.resp_code = COAP_CODE_VALID ∧ cep.validating = false then
        match env.ce_lookup with
        | some ce =>
          { dispatch := some (Dispatch.fromCache ce.response_code
              ce.response_tail),
            cache_processed := false,
            new_max_age := some (env.now + (env.max_age_opt.getD 60)),
            cep := zeroed_ep }
        | none =>
          { dispatch := none, cache_processed := false,
            new_max_age := none, cep := zeroed_ep }
      else
        { dispatch := d1, cache_processed := true,
          new_max_age := none, cep := zeroed_ep }
    else
      { dispatch := d1, cache_processed := false,
        new_max_age := none, cep := zeroed_ep }
  else
    { dispatch := none, cache_processed := false,
      new_max_age := none, cep := zeroed_ep }

/-! ### Helper lemmas -/

theorem get_set_self {α : Type _} (l : List α) (i : Nat) (a : α)
    (h : i < l.length) : (l.set i a)[i]? = some a := by
  induction l generalizing i with
  | nil => simp at h
  | cons x xs ih =>
    cases i with
    | zero => simp [List.set]
    | succ j =>
      simp only [List.set]
      simpa using ih j (by simpa using h)

theorem allocate_some_spec (eps : List client_ep_t) (ep : Nat)
    (eps1 : List client_ep_t) (i : Nat) (cep : client_ep_t)
    (h : _allocate_client_ep eps ep = some (eps1, i, cep)) :
    i < eps.length ∧ eps1.length = eps.length ∧
    cep.in_use = true ∧ cep.validating = false ∧ cep.ep = ep := by
  induction eps generalizing eps1 i cep with
  | nil => simp [_allocate_client_ep] at h
  | cons e rest ih =>
    unfold _allocate_client_ep at h
    by_cases he : e.in_use = false
    · rw [if_pos he] at h
      simp only [Option.some.injEq, Prod.mk.injEq] at h
      obtain ⟨h1, h2, h3⟩ := h
      subst h1; subst h2; subst h3
      simp
    · rw [if_neg he] at h
      cases hrec : _allocate_client_ep rest ep with
      | none => rw [hrec] at h; simp at h
      | some t =>
        obtain ⟨rest1, j, c⟩ := t
        rw [hrec] at h
        simp only [Option.some.injEq, Prod.mk.injEq] at h
        obtain ⟨h1, h2, h3⟩ := h
        subst h1; subst h2; subst h3
        obtain ⟨g1, g2, g3, g4, g5⟩ := ih rest1 j c hrec
        refine ⟨by simpa using g1, by simpa using g2, g3, g4, g5⟩

theorem alloc_first_free (eps : List client_ep_t) (client : Nat) :
    ∀ i cep, eps[i]? = some cep → cep.in_use = false →
      (∀ k c, k < i → eps[k]? = some c → c.in_use = true) →
      _allocate_client_ep eps client =
        some (eps.set i ⟨true, false, client, cep.cache_key⟩, i,
              ⟨true, false, client, cep.cache_key⟩) := by
  induction eps with
  | nil => intro i cep h; simp at h
  | cons e rest ih =>
    intro i cep h hfree hbefore
    cases i with
    | zero =>
      simp only [List.getElem?_cons_zero, Option.some.injEq] at h
      subst h
      unfold _allocate_client_ep
      rw [if_pos hfree]
      simp [List.set]
    | succ j =>
      have he : e.in_use = true := hbefore 0 e (Nat.succ_pos j) (by simp)
      unfold _allocate_client_ep
      rw [if_neg (by simp [he])]
      rw [ih j cep (by simpa using h) hfree
        (fun k c hk hkc => hbefore (k + 1) c (Nat.succ_lt_succ hk)
          (by simpa using hkc))]
      simp [List.set]

theorem alloc_full_none (eps : List client_ep_t) (client : Nat)
    (h : ∀ cep ∈ eps, cep.in_use = true) :
    _allocate_client_ep eps client = none := by
  induction eps with
  | nil => rfl
  | cons e rest ih =>
    unfold _allocate_client_ep
    rw [if_neg (by simp [h e (List.mem_cons_self e rest)])]
    rw [ih (fun c hc => h c (List.mem_cons_of_mem e hc))]

theorem request_process_full (env : ProcEnv) (pkt : CoapPkt) (client : Nat)
    (eps : List client_ep_t) (h : _allocate_client_ep eps client = none) :
    gcoap_forward_proxy_request_process env pkt client eps =
      ⟨0 - ENOMEM, eps, false, none⟩ := by
  unfold gcoap_forward_proxy_request_process
  rw [h]

/-- The request hits the cache: the cache is compiled in, the lookup
found an entry, its stored method equals the inbound method, and the
entry is not stale. -/
def cache_hit (env : ProcEnv) (pkt : CoapPkt) : Bool :=
  env.cacheUsed &&
    match env.ce_lookup with
    | some c =>
      decide (c.request_method = coap_get_code pkt) &&
        decide (env.now < c.max_age)
    | none => false

theorem cache_build_len_pos (c : nanocoap_cache_entry_t) (pdu : CoapPkt) :
    0 < (_cache_build_response c pdu).len := by
  unfold _cache_build_response
  simp only [coap_get_total_hdr_len]
  split
  case h_1 r heq =>
    split at heq
    · split at heq
      · split at heq
        · simp only [Option.some.injEq] at heq
          subst heq
          simp only []
          omega
        · simp at heq
      · simp at heq
    · simp at heq
  case h_2 heq =>
    simp only []
    omega

theorem cache_lookup_hit (now : Nat) (key : List Nat)
    (c : nanocoap_cache_entry_t) (pdu : CoapPkt) (cep : client_ep_t)
    (hm : c.request_method = coap_get_code pdu) (hf : now < c.max_age) :
    _cache_lookup_and_process now key (some c) pdu cep =
      ⟨(_cache_build_response c pdu).len, cep, some c,
       some (_cache_build_response c pdu)⟩ := by
  simp only [_cache_lookup_and_process]
  rw [if_pos ⟨hm, hf⟩]

theorem cache_lookup_miss (env : ProcEnv) (pkt : CoapPkt) (cep : client_ep_t)
    (hc : env.cacheUsed = true) (h : cache_hit env pkt = false) :
    _cache_lookup_and_process env.now env.cache_key env.ce_lookup pkt cep =
      ⟨0, { cep with cache_key := env.cache_key }, env.ce_lookup, none⟩ := by
  unfold cache_hit at h
  rw [hc] at h
  cases hce : env.ce_lookup with
  | none => simp only [_cache_lookup_and_process]
  | some c =>
    rw [hce] at h
    simp only [Bool.true_and, Bool.and_eq_false_iff,
      decide_eq_false_iff_not] at h
    simp only [_cache_lookup_and_process]
    rw [if_neg]
    intro hcond
    rcases h with h | h
    · exact h hcond.1
    · exact h hcond.2

/-- The table after the cache stage of request processing (the miss
path writes the digest into the slot's cache_key when the cache is
compiled in). -/
def eps_after_cache (env : ProcEnv) (eps1 : List client_ep_t) (i : Nat)
    (cep0 : client_ep_t) : List client_ep_t :=
  if env.cacheUsed = true then
    eps1.set i { cep0 with cache_key := env.cache_key }
  else eps1

/-- The allocated slot's value after the cache stage. -/
def cep_after_cache (env : ProcEnv) (cep0 : client_ep_t) : client_ep_t :=
  if env.cacheUsed = true then { cep0 with cache_key := env.cache_key }
  else cep0

/-- The cache entry reference handed on to forwarding. -/
def ce_after_cache (env : ProcEnv) : Option nanocoap_cache_entry_t :=
  if env.cacheUsed = true then env.ce_lookup else none

theorem eps_after_cache_length (env : ProcEnv) (eps1 : List client_ep_t)
    (i : Nat) (cep0 : client_ep_t) :
    (eps_after_cache env eps1 i cep0).length = eps1.length := by
  unfold eps_after_cache
  split <;> simp

theorem cep_after_cache_in_use (env : ProcEnv) (cep0 : client_ep_t) :
    (cep_after_cache env cep0).in_use = cep0.in_use := by
  unfold cep_after_cache
  split <;> rfl

theorem request_process_hit (env : ProcEnv) (pkt : CoapPkt) (client : Nat)
    (eps eps1 : List client_ep_t) (i : Nat) (cep0 : client_ep_t)
    (c : nanocoap_cache_entry_t)
    (halloc : _allocate_client_ep eps client = some (eps1, i, cep0))
    (hc : env.cacheUsed = true) (hce : env.ce_lookup = some c)
    (hm : c.request_method = coap_get_code pkt) (hf : env.now < c.max_age) :
    gcoap_forward_proxy_request_process env pkt client eps =
      ⟨(_cache_build_response c pkt).len,
       _free_client_ep (eps1.set i cep0) i, false,
       some (_cache_build_response c pkt)⟩ := by
  simp only [gcoap_forward_proxy_request_process, halloc]
  rw [hc]
  rw [if_pos rfl]
  rw [hce, cache_lookup_hit env.now env.cache_key c pkt cep0 hm hf]
  rw [if_pos (cache_build_len_pos c pkt)]

theorem request_process_miss (env : ProcEnv) (pkt : CoapPkt) (client : Nat)
    (eps eps1 : List client_ep_t) (i : Nat) (cep0 : client_ep_t)
    (halloc : _allocate_client_ep eps client = some (eps1, i, cep0))
    (hmiss : cache_hit env pkt = false) :
    gcoap_forward_proxy_request_process env pkt client eps =
      _proxy_stage env pkt (ce_after_cache env)
        (eps_after_cache env eps1 i cep0) i (cep_after_cache env cep0) := by
  simp only [gcoap_forward_proxy_request_process, halloc]
  by_cases hc : env.cacheUsed = true
  · rw [hc, if_pos rfl]
    rw [cache_lookup_miss env pkt cep0 hc hmiss]
    simp only [eps_after_cache, cep_after_cache, ce_after_cache, hc,
      if_pos rfl]
    rfl
  · rw [if_neg hc]
    simp only [eps_after_cache, cep_after_cache, ce_after_cache, if_neg hc]

/-! ### Claim C3 -/

/-- C3: when the cache lookup finds an entry whose request_method
equals the inbound method and whose max_age lies strictly in the
future, request processing builds the client response from that entry,
returns its positive length, releases the slot, and performs no
upstream send. -/
theorem c3_cache_hit_short_circuit (env : ProcEnv) (pkt : CoapPkt)
    (client : Nat) (eps eps1 : List client_ep_t) (i : Nat)
    (cep0 : client_ep_t) (c : nanocoap_cache_entry_t)
    (halloc : _allocate_client_ep eps client = some (eps1, i, cep0))
    (hc : env.cacheUsed = true) (hce : env.ce_lookup = some c)
    (hm : c.request_method = coap_get_code pkt) (hf : env.now < c.max_age) :
    (gcoap_forward_proxy_request_process env pkt client eps).ret =
      (_cache_build_response c pkt).len ∧
    0 < (gcoap_forward_proxy_request_process env pkt client eps).ret ∧
    (gcoap_forward_proxy_request_process env pkt client eps).resp =
      some (_cache_build_response c pkt) ∧
    (gcoap_forward_proxy_request_process env pkt client eps).sent = false ∧
    (gcoap_forward_proxy_request_process env pkt client eps).eps[i]? =
      some zeroed_ep := by
  have h := request_process_hit env pkt client eps eps1 i cep0 c halloc hc
    hce hm hf
  rw [h]
  obtain ⟨hi, hlen, _⟩ := allocate_some_spec eps client eps1 i cep0 halloc
  refine ⟨rfl, cache_build_len_pos c pkt, rfl, rfl, ?_⟩
  unfold _free_client_ep
  exact get_set_self _ i zeroed_ep (by simp [hlen]; omega)

/-! ### Behaviour of the post-cache stage -/

theorem proxy_stage_error (env : ProcEnv) (pkt : CoapPkt)
    (ce : Option nanocoap_cache_entry_t) (eps2 : List client_ep_t)
    (i : Nat) (cep : client_ep_t) (e : Int)
    (hpu : env.proxy_uri = Except.error e) :
    _proxy_stage env pkt ce eps2 i cep =
      ⟨e, _free_client_ep eps2 i, false, none⟩ := by
  simp only [_proxy_stage, hpu]

theorem proxy_stage_urip_none (env : ProcEnv) (pkt : CoapPkt)
    (ce : Option nanocoap_cache_entry_t) (eps2 : List client_ep_t)
    (i : Nat) (cep : client_ep_t)
    (hpu : env.proxy_uri = Except.ok ()) (hup : env.urip = none) :
    _proxy_stage env pkt ce eps2 i cep =
      ⟨0 - EINVAL, _free_client_ep eps2 i, false, none⟩ := by
  simp only [_proxy_stage, hpu, hup]

theorem proxy_stage_not_absolute (env : ProcEnv) (pkt : CoapPkt)
    (ce : Option nanocoap_cache_entry_t) (eps2 : List client_ep_t)
    (i : Nat) (cep : client_ep_t) (urip : uri_result_t)
    (hpu : env.proxy_uri = Except.ok ()) (hup : env.urip = some urip)
    (habs : env.is_absolute = false) :
    _proxy_stage env pkt ce eps2 i cep =
      ⟨0 - EINVAL, _free_client_ep eps2 i, false, none⟩ := by
  simp only [_proxy_stage, hpu, hup]
  rw [habs, if_pos rfl]

theorem proxy_stage_scheme_reject (env : ProcEnv) (pkt : CoapPkt)
    (ce : Option nanocoap_cache_entry_t) (eps2 : List client_ep_t)
    (i : Nat) (cep : client_ep_t) (urip : uri_result_t)
    (hpu : env.proxy_uri = Except.ok ()) (hup : env.urip = some urip)
    (habs : env.is_absolute = true)
    (hsch : ¬ strncmp coapChars urip.scheme urip.scheme.length = 0) :
    _proxy_stage env pkt ce eps2 i cep =
      ⟨0 - EPERM, _free_client_ep eps2 i, false, none⟩ := by
  simp only [_proxy_stage, hpu, hup]
  rw [habs]
  rw [if_neg (by simp)]
  rw [if_neg hsch]

theorem via_coap_endpoint_fail (env : ProcEnv) (pkt : CoapPkt)
    (urip : uri_result_t) (ce : Option nanocoap_cache_entry_t)
    (eps : List client_ep_t) (i : Nat) (cep : client_ep_t)
    (hep : env.endpoint_ok = false) :
    _gcoap_forward_proxy_via_coap env pkt urip ce eps i cep =
      (0 - EINVAL, eps, false) := by
  simp only [_gcoap_forward_proxy_via_coap, hep, if_true]

theorem via_coap_memo (env : ProcEnv) (pkt : CoapPkt)
    (urip : uri_result_t) (ce : Option nanocoap_cache_entry_t)
    (eps : List client_ep_t) (i : Nat) (cep : client_ep_t)
    (hep : env.endpoint_ok = true) (hmemo : env.memo_exists = true) :
    _gcoap_forward_proxy_via_coap env pkt urip ce eps i cep =
      (0, _free_client_ep eps i, false) := by
  simp only [_gcoap_forward_proxy_via_coap, hep, hmemo]
  norm_num

theorem via_coap_send (env : ProcEnv) (pkt : CoapPkt)
    (urip : uri_result_t) (ce : Option nanocoap_cache_entry_t)
    (eps : List client_ep_t) (i : Nat) (cep : client_ep_t)
    (hep : env.endpoint_ok = true) (hmemo : env.memo_exists = false) :
    _gcoap_forward_proxy_via_coap env pkt urip ce eps i cep =
      (env.send_result, eps.set i { cep with validating :=
        (_gcoap_forward_proxy_copy_options env.cacheUsed pkt.options urip
          ce cep.validating).validating }, true) := by
  simp only [_gcoap_forward_proxy_via_coap, hep, hmemo]
  norm_num

theorem proxy_stage_endpoint_fail (env : ProcEnv) (pkt : CoapPkt)
    (ce : Option nanocoap_cache_entry_t) (eps2 : List client_ep_t)
    (i : Nat) (cep : client_ep_t) (urip : uri_result_t)
    (hpu : env.proxy_uri = Except.ok ()) (hup : env.urip = some urip)
    (habs : env.is_absolute = true)
    (hsch : strncmp coapChars urip.scheme urip.scheme.length = 0)
    (hep : env.endpoint_ok = false) :
    _proxy_stage env pkt ce eps2 i cep =
      ⟨0 - EINVAL, _free_client_ep eps2 i, false, none⟩ := by
  simp only [_proxy_stage, hpu, hup]
  rw [habs]
  rw [if_neg (by simp)]
  rw [if_pos hsch]
  rw [via_coap_endpoint_fail env pkt urip ce eps2 i cep hep]
  norm_num [EINVAL]

theorem proxy_stage_memo (env : ProcEnv) (pkt : CoapPkt)
    (ce : Option nanocoap_cache_entry_t) (eps2 : List client_ep_t)
    (i : Nat) (cep : client_ep_t) (urip : uri_result_t)
    (hpu : env.proxy_uri = Except.ok ()) (hup : env.urip = some urip)
    (habs : env.is_absolute = true)
    (hsch : strncmp coapChars urip.scheme urip.scheme.length = 0)
    (hep : env.endpoint_ok = true) (hmemo : env.memo_exists = true) :
    _proxy_stage env pkt ce eps2 i cep =
      ⟨0, _free_client_ep eps2 i, false, none⟩ := by
  simp only [_proxy_stage, hpu, hup]
  rw [habs]
  rw [if_neg (by simp)]
  rw [if_pos hsch]
  rw [via_coap_memo env pkt urip ce eps2 i cep hep hmemo]
  norm_num

theorem proxy_stage_send (env : ProcEnv) (pkt : CoapPkt)
    (ce : Option nanocoap_cache_entry_t) (eps2 : List client_ep_t)
    (i : Nat) (cep : client_ep_t) (urip : uri_result_t)
    (hpu : env.proxy_uri = Except.ok ()) (hup : env.urip = some urip)
    (habs : env.is_absolute = true)
    (hsch : strncmp coapChars urip.scheme urip.scheme.length = 0)
    (hep : env.endpoint_ok = true) (hmemo : env.memo_exists = false) :
    _proxy_stage env pkt ce eps2 i cep =
      if env.send_result < 0 then
        ⟨0 - EINVAL,
         _free_client_ep (eps2.set i { cep with validating :=
           (_gcoap_forward_proxy_copy_options env.cacheUsed pkt.options
             urip ce cep.validating).validating }) i, true, none⟩
      else
        ⟨0, eps2.set i { cep with validating :=
           (_gcoap_forward_proxy_copy_options env.cacheUsed pkt.options
             urip ce cep.validating).validating }, true, none⟩ := by
  simp only [_proxy_stage, hpu, hup]
  rw [habs]
  rw [if_neg (by simp)]
  rw [if_pos hsch]
  rw [via_coap_send env pkt urip ce eps2 i cep hep hmemo]

theorem handler_fst (env : ProcEnv) (pkt : CoapPkt) (client : Nat)
    (eps : List client_ep_t) (r : Int)
    (h : (gcoap_forward_proxy_request_process env pkt client eps).ret = r) :
    (_forward_proxy_handler env pkt client eps).1 =
      if r = 0 - ENOMEM then HandlerOut.resp COAP_CODE_INTERNAL_SERVER_ERROR
      else if r = 0 - EINVAL then HandlerOut.resp COAP_CODE_BAD_OPTION
      else if r = 0 - EPERM then
        HandlerOut.resp COAP_CODE_PROXYING_NOT_SUPPORTED
      else HandlerOut.raw r := by
  simp only [_forward_proxy_handler]
  rw [h]
  by_cases h1 : r = 0 - ENOMEM
  · simp [h1]
  · by_cases h2 : r = 0 - EINVAL
    · norm_num [h1, h2, ENOMEM, EINVAL]
    · by_cases h3 : r = 0 - EPERM
      · norm_num [h1, h2, h3, ENOMEM, EINVAL, EPERM]
      · rw [if_neg h1, if_neg h2, if_neg h3, if_neg h1, if_neg h2,
          if_neg h3]

/-! ### Claim C6 -/

/-- C6: when the engine's memo table already holds an in-flight request
for the same (client packet, origin endpoint) pair, the freshly
allocated slot is released, no upstream send happens, and request
processing returns 0 (the handler returns 0: no response goes to the
client). -/
theorem c6_duplicate_request_suppressed (env : ProcEnv) (pkt : CoapPkt)
    (client : Nat) (eps eps1 : List client_ep_t) (i : Nat)
    (cep0 : client_ep_t) (urip : uri_result_t)
    (halloc : _allocate_client_ep eps client = some (eps1, i, cep0))
    (hmiss : cache_hit env pkt = false)
    (hpu : env.proxy_uri = Except.ok ()) (hup : env.urip = some urip)
    (habs : env.is_absolute = true)
    (hsch : strncmp coapChars urip.scheme urip.scheme.length = 0)
    (hep : env.endpoint_ok = true) (hmemo : env.memo_exists = true) :
    (gcoap_forward_proxy_request_process env pkt client eps).ret = 0 ∧
    (gcoap_forward_proxy_request_process env pkt client eps).sent = false ∧
    (gcoap_forward_proxy_request_process env pkt client eps).eps[i]? =
      some zeroed_ep ∧
    (_forward_proxy_handler env pkt client eps).1 = HandlerOut.raw 0 := by
  have hr := request_process_miss env pkt client eps eps1 i cep0 halloc hmiss
  rw [proxy_stage_memo env pkt (ce_after_cache env)
    (eps_after_cache env eps1 i cep0) i (cep_after_cache env cep0) urip
    hpu hup habs hsch hep hmemo] at hr
  obtain ⟨hi, hlen, _⟩ := allocate_some_spec eps client eps1 i cep0 halloc
  refine ⟨by rw [hr], by rw [hr], ?_, ?_⟩
  · rw [hr]
    unfold _free_client_ep
    exact get_set_self _ i zeroed_ep
      (by rw [eps_after_cache_length]; omega)
  · unfold _forward_proxy_handler
    rw [hr]
    rfl

/-! ### Claim C10 -/

/-- C10: once the request has reached gcoap_req_send, a negative send
result makes request processing release the slot and return -EINVAL,
which the handler maps to 4.02 Bad Option whatever the underlying
error was; a send result of 0 makes it return 0 with the slot still
allocated. -/
theorem c10_send_result_paths (env : ProcEnv) (pkt : CoapPkt)
    (client : Nat) (eps eps1 : List client_ep_t) (i : Nat)
    (cep0 : client_ep_t) (urip : uri_result_t)
    (halloc : _allocate_client_ep eps client = some (eps1, i, cep0))
    (hmiss : cache_hit env pkt = false)
    (hpu : env.proxy_uri = Except.ok ()) (hup : env.urip = some urip)
    (habs : env.is_absolute = true)
    (hsch : strncmp coapChars urip.scheme urip.scheme.length = 0)
    (hep : env.endpoint_ok = true) (hmemo : env.memo_exists = false) :
    (env.send_result < 0 →
      (gcoap_forward_proxy_request_process env pkt client eps).ret =
        0 - EINVAL ∧
      (_forward_proxy_handler env pkt client eps).1 =
        HandlerOut.resp COAP_CODE_BAD_OPTION ∧
      (gcoap_forward_proxy_request_process env pkt client eps).eps[i]? =
        some zeroed_ep) ∧
    (env.send_result = 0 →
      (gcoap_forward_proxy_request_process env pkt client eps).ret = 0 ∧
      (gcoap_forward_proxy_request_process env pkt client eps).sent = true ∧
      ∃ s, (gcoap_forward_proxy_request_process env pkt client
        eps).eps[i]? = some s ∧ s.in_use = true) := by
  have hr := request_process_miss env pkt client eps eps1 i cep0 halloc hmiss
  rw [proxy_stage_send env pkt (ce_after_cache env)
    (eps_after_cache env eps1 i cep0) i (cep_after_cache env cep0) urip
    hpu hup habs hsch hep hmemo] at hr
  obtain ⟨hi, hlen, hin, _⟩ := allocate_some_spec eps client eps1 i cep0 halloc
  constructor
  · intro hs
    rw [if_pos hs] at hr
    refine ⟨by rw [hr], ?_, ?_⟩
    · unfold _forward_proxy_handler
      rw [hr]
      rfl
    · rw [hr]
      unfold _free_client_ep
      exact get_set_self _ i zeroed_ep
        (by simp only [List.length_set, eps_after_cache_length]; omega)
  · intro hs
    rw [if_neg (by omega)] at hr
    refine ⟨by rw [hr], by rw [hr], ?_⟩
    refine ⟨{ cep_after_cache env cep0 with validating :=
      (_gcoap_forward_proxy_copy_options env.cacheUsed pkt.options urip
        (ce_after_cache env)
        (cep_after_cache env cep0).validating).validating }, ?_, ?_⟩
    · rw [hr]
      exact get_set_self _ i _ (by rw [eps_after_cache_length]; omega)
    · show (cep_after_cache env cep0).in_use = true
      rw [cep_after_cache_in_use]
      exact hin

/-! ### Claim C2 -/

/-- C2 (amended): the scheme gate is strncmp with the parsed scheme's
own length, so the 5.05 rejection happens exactly when the scheme
token fails that length-bounded comparison; any scheme that is a
prefix of the word coap (such as the two characters c o) passes the
gate and is forwarded. -/
theorem c2_scheme_prefix_amended (env : ProcEnv) (pkt : CoapPkt)
    (client : Nat) (eps eps1 : List client_ep_t) (i : Nat)
    (cep0 : client_ep_t) (urip : uri_result_t)
    (halloc : _allocate_client_ep eps client = some (eps1, i, cep0))
    (hmiss : cache_hit env pkt = false)
    (hpu : env.proxy_uri = Except.ok ()) (hup : env.urip = some urip)
    (habs : env.is_absolute = true) :
    (¬ strncmp coapChars urip.scheme urip.scheme.length = 0 →
      (gcoap_forward_proxy_request_process env pkt client eps).ret =
        0 - EPERM ∧
      (gcoap_forward_proxy_request_process env pkt client eps).sent =
        false ∧
      (_forward_proxy_handler env pkt client eps).1 =
        HandlerOut.resp COAP_CODE_PROXYING_NOT_SUPPORTED ∧
      (gcoap_forward_proxy_request_process env pkt client eps).eps[i]? =
        some zeroed_ep) ∧
    (strncmp coapChars urip.scheme urip.scheme.length = 0 →
      (gcoap_forward_proxy_request_process env pkt client eps).ret ≠
        0 - EPERM ∧
      (_forward_proxy_handler env pkt client eps).1 ≠
        HandlerOut.resp COAP_CODE_PROXYING_NOT_SUPPORTED) := by
  have hr := request_process_miss env pkt client eps eps1 i cep0 halloc hmiss
  obtain ⟨hi, hlen, _⟩ := allocate_some_spec eps client eps1 i cep0 halloc
  constructor
  · intro hsch
    rw [proxy_stage_scheme_reject env pkt (ce_after_cache env)
      (eps_after_cache env eps1 i cep0) i (cep_after_cache env cep0) urip
      hpu hup habs hsch] at hr
    refine ⟨by rw [hr], by rw [hr], ?_, ?_⟩
    · unfold _forward_proxy_handler
      rw [hr]
      rfl
    · rw [hr]
      unfold _free_client_ep
      exact get_set_self _ i zeroed_ep
        (by rw [eps_after_cache_length]; omega)
  · intro hsch
    by_cases hep : env.endpoint_ok = true
    · by_cases hmemo : env.memo_exists = true
      · rw [proxy_stage_memo env pkt (ce_after_cache env)
          (eps_after_cache env eps1 i cep0) i (cep_after_cache env cep0)
          urip hpu hup habs hsch hep hmemo] at hr
        constructor
        · rw [hr]
          show (0 : Int) ≠ 0 - EPERM
          decide
        · rw [handler_fst env pkt client eps 0 (by rw [hr])]
          decide
      · rw [proxy_stage_send env pkt (ce_after_cache env)
          (eps_after_cache env eps1 i cep0) i (cep_after_cache env cep0)
          urip hpu hup habs hsch hep (by simpa using hmemo)] at hr
        by_cases hs : env.send_result < 0
        · rw [if_pos hs] at hr
          constructor
          · rw [hr]
            show (0 : Int) - EINVAL ≠ 0 - EPERM
            decide
          · rw [handler_fst env pkt client eps (0 - EINVAL) (by rw [hr])]
            decide
        · rw [if_neg hs] at hr
          constructor
          · rw [hr]
            show (0 : Int) ≠ 0 - EPERM
            decide
          · rw [handler_fst env pkt client eps 0 (by rw [hr])]
            decide
    · rw [proxy_stage_endpoint_fail env pkt (ce_after_cache env)
        (eps_after_cache env eps1 i cep0) i (cep_after_cache env cep0)
        urip hpu hup habs hsch (by simpa using hep)] at hr
      constructor
      · rw [hr]
        show (0 : Int) - EINVAL ≠ 0 - EPERM
        decide
      · rw [handler_fst env pkt client eps (0 - EINVAL) (by rw [hr])]
        decide

/-! ### Claim C7 -/

/-- C7 (amended): the request matcher only matches packets whose
Proxy-Uri option is present, so a missing option never reaches the
handler; for a matched request whose Proxy-Uri fails to parse or is a
relative URI, request processing releases the slot and returns
-EINVAL, which the handler answers with 4.02 Bad Option. -/
theorem c7_bad_option_amended (env : ProcEnv) (pkt : CoapPkt)
    (client : Nat) (eps eps1 : List client_ep_t) (i : Nat)
    (cep0 : client_ep_t)
    (halloc : _allocate_client_ep eps client = some (eps1, i, cep0))
    (hmiss : cache_hit env pkt = false)
    (hmatch : _request_matcher_forward_proxy env = true) :
    (∀ e, env.proxy_uri ≠ Except.error e) ∧
    ((env.urip = none ∨ env.is_absolute = false) →
      (gcoap_forward_proxy_request_process env pkt client eps).ret =
        0 - EINVAL ∧
      (gcoap_forward_proxy_request_process env pkt client eps).sent =
        false ∧
      (_forward_proxy_handler env pkt client eps).1 =
        HandlerOut.resp COAP_CODE_BAD_OPTION ∧
      (gcoap_forward_proxy_request_process env pkt client eps).eps[i]? =
        some zeroed_ep) := by
  have hpu : env.proxy_uri = Except.ok () := by
    cases h : env.proxy_uri with
    | ok u => cases u; rfl
    | error e =>
      simp [_request_matcher_forward_proxy, h] at hmatch
  have hr := request_process_miss env pkt client eps eps1 i cep0 halloc hmiss
  obtain ⟨hi, hlen, _⟩ := allocate_some_spec eps client eps1 i cep0 halloc
  refine ⟨fun e he => by rw [hpu] at he; exact Except.noConfusion he, ?_⟩
  intro hcase
  have hr2 : gcoap_forward_proxy_request_process env pkt client eps =
      ⟨0 - EINVAL,
       _free_client_ep (eps_after_cache env eps1 i cep0) i, false, none⟩ := by
    rcases hcase with hup | habs
    · rw [proxy_stage_urip_none env pkt (ce_after_cache env)
        (eps_after_cache env eps1 i cep0) i (cep_after_cache env cep0)
        hpu hup] at hr
      exact hr
    · cases hup : env.urip with
      | none =>
        rw [proxy_stage_urip_none env pkt (ce_after_cache env)
          (eps_after_cache env eps1 i cep0) i (cep_after_cache env cep0)
          hpu hup] at hr
        exact hr
      | some u =>
        rw [proxy_stage_not_absolute env pkt (ce_after_cache env)
          (eps_after_cache env eps1 i cep0) i (cep_after_cache env cep0)
          u hpu hup habs] at hr
        exact hr
  refine ⟨by rw [hr2], by rw [hr2], ?_, ?_⟩
  · unfold _forward_proxy_handler
    rw [hr2]
    rfl
  · rw [hr2]
    unfold _free_client_ep
    exact get_set_self _ i zeroed_ep
      (by rw [eps_after_cache_length]; omega)

/-! ### Claim C1 -/

/-- C1: the claim says the rewriter emits outbound option numbers in
non-decreasing order.  The code does not: on a client packet carrying
Content-Format (12) and Proxy-Uri (35), with a target URI that has a
query, the rewriter inserts Uri-Path (11) and Uri-Query (15) before
copying Content-Format, emitting the numbers 11, 15, 12 — the copied
option 12 lands after the injected 15. -/
theorem c1_option_order_violation :
    optNums (_gcoap_forward_proxy_copy_options false
        [⟨COAP_OPT_CONTENT_FORMAT, [42]⟩, ⟨COAP_OPT_PROXY_URI, [1]⟩]
        ⟨['c', 'o', 'a', 'p'], ['/', 'a'], some ['x', '=', '1']⟩
        none false).out
      = [COAP_OPT_URI_PATH, COAP_OPT_URI_QUERY, COAP_OPT_CONTENT_FORMAT] ∧
    nondecreasing (optNums (_gcoap_forward_proxy_copy_options false
        [⟨COAP_OPT_CONTENT_FORMAT, [42]⟩, ⟨COAP_OPT_PROXY_URI, [1]⟩]
        ⟨['c', 'o', 'a', 'p'], ['/', 'a'], some ['x', '=', '1']⟩
        none false).out) = false := by
  constructor
  · rfl
  · rfl

/-! ### Claim C8 -/

/-- C8: slot allocation scans the table left to right and claims the
first slot with in_use = false, storing the client endpoint, setting
validating to false and leaving the slot's cache_key bytes alone; when
every slot is in use it returns null, request processing returns
-ENOMEM without touching the table or sending upstream, and the
handler replies 5.00 Internal Server Error. -/
theorem c8_slot_allocation (eps : List client_ep_t) (client : Nat)
    (env : ProcEnv) (pkt : CoapPkt) :
    (∀ i cep, eps[i]? = some cep → cep.in_use = false →
      (∀ k c, k < i → eps[k]? = some c → c.in_use = true) →
      _allocate_client_ep eps client =
        some (eps.set i ⟨true, false, client, cep.cache_key⟩, i,
              ⟨true, false, client, cep.cache_key⟩)) ∧
    ((∀ cep ∈ eps, cep.in_use = true) →
      _allocate_client_ep eps client = none ∧
      gcoap_forward_proxy_request_process env pkt client eps =
        ⟨0 - ENOMEM, eps, false, none⟩ ∧
      _forward_proxy_handler env pkt client eps =
        (HandlerOut.resp COAP_CODE_INTERNAL_SERVER_ERROR, eps, false)) := by
  constructor
  · exact alloc_first_free eps client
  · intro hfull
    have hnone := alloc_full_none eps client hfull
    have hproc := request_process_full env pkt client eps hnone
    refine ⟨hnone, hproc, ?_⟩
    unfold _forward_proxy_handler
    rw [hproc]
    rfl

/-! ### Claim C5: invariants of the option rewriter -/

/-- Number of ETag options in an option list. -/
def etag_count (l : List CoapOption) : Nat :=
  l.countP (fun o => decide (o.num = COAP_OPT_ETAG))

/-- Every ETag option in the list is the cache entry's ETag. -/
def etags_from_cache (ce : Option nanocoap_cache_entry_t)
    (l : List CoapOption) : Prop :=
  ∀ o ∈ l, o.num = COAP_OPT_ETAG →
    ∃ c, ce = some c ∧ c.response_etag = some o.val

/-- Invariant carried through the rewriter's loop. -/
def RwInv (ce : Option nanocoap_cache_entry_t) (s : RewriteState) : Prop :=
  (∀ o ∈ s.out, o.num ≠ COAP_OPT_PROXY_URI) ∧
  etag_count s.out ≤ 1 ∧
  (s.etag_added = false → etag_count s.out = 0) ∧
  etags_from_cache ce s.out

theorem coap_opt_add_chars_mem (optnum : Nat) (cs : List Char) (sep : Char)
    (o : CoapOption) (h : o ∈ coap_opt_add_chars optnum cs sep) :
    o.num = optnum := by
  unfold coap_opt_add_chars at h
  obtain ⟨s, _, rfl⟩ := List.mem_map.mp h
  rfl

theorem add_uri_path_mem (urip : uri_result_t) (o : CoapOption)
    (h : o ∈ _gcoap_forward_proxy_add_uri_path urip) :
    o.num = COAP_OPT_URI_PATH ∨ o.num = COAP_OPT_URI_QUERY := by
  unfold _gcoap_forward_proxy_add_uri_path at h
  rcases List.mem_append.mp h with h1 | h2
  · exact Or.inl (coap_opt_add_chars_mem _ _ _ _ h1)
  · cases hq : urip.query with
    | some q =>
      rw [hq] at h2
      exact Or.inr (coap_opt_add_chars_mem _ _ _ _ h2)
    | none =>
      rw [hq] at h2
      simp at h2

theorem etag_count_append (a b : List CoapOption) :
    etag_count (a ++ b) = etag_count a + etag_count b := by
  unfold etag_count
  exact List.countP_append _ _ _

theorem etag_count_add_uri_path (urip : uri_result_t) :
    etag_count (_gcoap_forward_proxy_add_uri_path urip) = 0 := by
  unfold etag_count
  rw [List.countP_eq_zero]
  intro o ho
  rcases add_uri_path_mem urip o ho with h | h <;>
    simp [h, COAP_OPT_ETAG, COAP_OPT_URI_PATH, COAP_OPT_URI_QUERY]

theorem copy_etag_phase_inv (cacheUsed : Bool)
    (ce : Option nanocoap_cache_entry_t) (s : RewriteState)
    (o : CoapOption) (h : RwInv ce s) :
    RwInv ce (copy_etag_phase cacheUsed ce s o) ∧
    (copy_etag_phase cacheUsed ce s o).validating = s.validating ∧
    (copy_etag_phase cacheUsed ce s o).uri_path_added = s.uri_path_added := by
  obtain ⟨h35, hle, hz, hfc⟩ := h
  unfold copy_etag_phase
  by_cases hc : s.etag_added = false ∧ COAP_OPT_ETAG ≤ o.num
  · rw [if_pos hc]
    cases cacheUsed with
    | false => exact ⟨⟨h35, hle, hz, hfc⟩, rfl, rfl⟩
    | true =>
      cases ce with
      | none => exact ⟨⟨h35, hle, hz, hfc⟩, rfl, rfl⟩
      | some c =>
        cases hre : c.response_etag with
        | none =>
          simp only [hre]
          refine ⟨⟨h35, hle, by intro hf; exact absurd hf (by simp), hfc⟩,
            by trivial, by trivial⟩
        | some etag =>
          simp only [hre]
          by_cases hlen : 0 < etag.length
          · rw [if_pos hlen]
            refine ⟨⟨?_, ?_, ?_, ?_⟩, rfl, rfl⟩
            · intro o2 ho2
              rcases List.mem_append.mp ho2 with hA | hB
              · exact h35 o2 hA
              · simp only [List.mem_singleton] at hB
                subst hB
                simp [COAP_OPT_ETAG, COAP_OPT_PROXY_URI]
            · rw [etag_count_append, hz hc.1]
              simp [etag_count, COAP_OPT_ETAG]
            · intro hf
              exact absurd hf (by simp)
            · intro o2 ho2 hnum
              rcases List.mem_append.mp ho2 with hA | hB
              · exact hfc o2 hA hnum
              · simp only [List.mem_singleton] at hB
                subst hB
                exact ⟨c, rfl, hre⟩
          · rw [if_neg hlen]
            refine ⟨⟨h35, hle, by intro hf; exact absurd hf (by simp), hfc⟩,
              rfl, rfl⟩
  · rw [if_neg hc]
    exact ⟨⟨h35, hle, hz, hfc⟩, rfl, rfl⟩

theorem copy_uri_path_phase_inv (urip : uri_result_t)
    (ce : Option nanocoap_cache_entry_t) (s : RewriteState)
    (o : CoapOption) (h : RwInv ce s) :
    RwInv ce (copy_uri_path_phase urip s o) ∧
    (copy_uri_path_phase urip s o).validating = s.validating ∧
    (copy_uri_path_phase urip s o).etag_added = s.etag_added := by
  obtain ⟨h35, hle, hz, hfc⟩ := h
  unfold copy_uri_path_phase
  by_cases hu : s.uri_path_added = false ∧ COAP_OPT_URI_PATH < o.num
  · rw [if_pos hu]
    refine ⟨⟨?_, ?_, ?_, ?_⟩, rfl, rfl⟩
    · intro o2 ho2
      rcases List.mem_append.mp ho2 with hA | hB
      · exact h35 o2 hA
      · rcases add_uri_path_mem urip o2 hB with hN | hN <;>
          simp [hN, COAP_OPT_URI_PATH, COAP_OPT_URI_QUERY,
            COAP_OPT_PROXY_URI]
    · rw [etag_count_append, etag_count_add_uri_path]
      simpa using hle
    · intro hf
      rw [etag_count_append, etag_count_add_uri_path]
      simpa using hz hf
    · intro o2 ho2 hnum
      rcases List.mem_append.mp ho2 with hA | hB
      · exact hfc o2 hA hnum
      · rcases add_uri_path_mem urip o2 hB with hN | hN <;>
        · rw [hN] at hnum
          exact absurd hnum (by simp [COAP_OPT_URI_PATH,
            COAP_OPT_URI_QUERY, COAP_OPT_ETAG])
  · rw [if_neg hu]
    exact ⟨⟨h35, hle, hz, hfc⟩, rfl, rfl⟩

theorem copy_options_step_inv (cacheUsed : Bool) (urip : uri_result_t)
    (ce : Option nanocoap_cache_entry_t) (s : RewriteState)
    (o : CoapOption) (h : RwInv ce s) :
    RwInv ce (copy_options_step cacheUsed urip ce s o) ∧
    (copy_options_step cacheUsed urip ce s o).validating =
      (s.validating || decide (o.num = COAP_OPT_ETAG)) := by
  obtain ⟨hinv1, hval1, _⟩ := copy_etag_phase_inv cacheUsed ce s o h
  obtain ⟨hinv2, hval2, hetag2⟩ := copy_uri_path_phase_inv urip ce
    (copy_etag_phase cacheUsed ce s o) o hinv1
  unfold copy_options_step
  by_cases he : o.num = COAP_OPT_ETAG
  · rw [if_pos he]
    obtain ⟨g35, gle, gz, gfc⟩ := hinv1
    refine ⟨⟨g35, gle, gz, gfc⟩, ?_⟩
    simp [he]
  · rw [if_neg he]
    obtain ⟨h35, hle, hz, hfc⟩ := hinv2
    by_cases hp : o.num = COAP_OPT_PROXY_URI
    · rw [if_pos hp]
      refine ⟨⟨h35, hle, hz, hfc⟩, ?_⟩
      rw [hval2, hval1]
      simp [he]
    · rw [if_neg hp]
      refine ⟨⟨?_, ?_, ?_, ?_⟩, ?_⟩
      · intro o2 ho2
        rcases List.mem_append.mp ho2 with hA | hB
        · exact h35 o2 hA
        · simp only [List.mem_singleton] at hB
          subst hB
          exact hp
      · rw [etag_count_append]
        have h0 : etag_count [o] = 0 := by
          simp [etag_count, he]
        omega
      · intro hf
        rw [etag_count_append]
        have h0 : etag_count [o] = 0 := by
          simp [etag_count, he]
        have h1 := hz hf
        omega
      · intro o2 ho2 hnum
        rcases List.mem_append.mp ho2 with hA | hB
        · exact hfc o2 hA hnum
        · simp only [List.mem_singleton] at hB
          subst hB
          exact absurd hnum he
      · show (copy_uri_path_phase urip (copy_etag_phase cacheUsed ce s o)
          o).validating = _
        rw [hval2, hval1]
        simp [he]

theorem copy_options_foldl_inv (cacheUsed : Bool) (urip : uri_result_t)
    (ce : Option nanocoap_cache_entry_t) (opts : List CoapOption)
    (s : RewriteState) (h : RwInv ce s) :
    RwInv ce (opts.foldl (copy_options_step cacheUsed urip ce) s) ∧
    (opts.foldl (copy_options_step cacheUsed urip ce) s).validating =
      (s.validating ||
        opts.any (fun o => decide (o.num = COAP_OPT_ETAG))) := by
  induction opts generalizing s with
  | nil =>
    refine ⟨h, ?_⟩
    simp
  | cons o rest ih =>
    obtain ⟨h1, h2⟩ := copy_options_step_inv cacheUsed urip ce s o h
    obtain ⟨h3, h4⟩ := ih _ h1
    refine ⟨h3, ?_⟩
    rw [List.foldl_cons] at *
    rw [h4, h2]
    simp [Bool.or_assoc]

/-- C5: for every inbound request the rewriter's outbound option list
contains no Proxy-Uri option and at most one ETag option; any ETag it
contains is the cache entry's response ETag (never the client's), and
starting from a freshly allocated slot the validating flag ends true
exactly when the inbound request carried an ETag option. -/
theorem c5_outbound_etag_invariants (cacheUsed : Bool)
    (opts : List CoapOption) (urip : uri_result_t)
    (ce : Option nanocoap_cache_entry_t) :
    (∀ o ∈ (_gcoap_forward_proxy_copy_options cacheUsed opts urip ce
      false).out, o.num ≠ COAP_OPT_PROXY_URI) ∧
    etag_count (_gcoap_forward_proxy_copy_options cacheUsed opts urip ce
      false).out ≤ 1 ∧
    (∀ o ∈ (_gcoap_forward_proxy_copy_options cacheUsed opts urip ce
      false).out, o.num = COAP_OPT_ETAG →
      ∃ c, ce = some c ∧ c.response_etag = some o.val) ∧
    ((_gcoap_forward_proxy_copy_options cacheUsed opts urip ce
      false).validating = true ↔ ∃ o ∈ opts, o.num = COAP_OPT_ETAG) := by
  have h0 : RwInv ce ⟨false, false, false, []⟩ := by
    refine ⟨?_, ?_, ?_, ?_⟩ <;> simp [etag_count, etags_from_cache]
  obtain ⟨⟨h35, hle, _, hfc⟩, hval⟩ :=
    copy_options_foldl_inv cacheUsed urip ce opts ⟨false, false, false, []⟩ h0
  unfold _gcoap_forward_proxy_copy_options
  refine ⟨h35, hle, hfc, ?_⟩
  rw [hval]
  simp [List.any_eq_true]

/-! ### Claim C4 -/

/-- C4: on a received 2.03 Valid when the slot's validating flag is
false, the response handler looks the entry up by the slot's
cache_key; when found, the entry's max_age becomes now plus the
response's Max-Age (60 when the option is absent) and a response
rebuilt from the entry is dispatched to the client; when the entry is
gone nothing is dispatched. -/
theorem c4_proxy_revalidation (env : RespEnv) (cep : client_ep_t)
    (h1 : env.memo_state = MemoState.resp) (h2 : env.cacheUsed = true)
    (h3 : env.resp_code = COAP_CODE_VALID) (h4 : cep.validating = false) :
    (∀ ce, env.ce_lookup = some ce →
      (_forward_resp_handler env cep).new_max_age =
        some (env.now + (env.max_age_opt.getD 60)) ∧
      (_forward_resp_handler env cep).dispatch =
        some (Dispatch.fromCache ce.response_code ce.response_tail)) ∧
    (env.ce_lookup = none →
      (_forward_resp_handler env cep).dispatch = none ∧
      (_forward_resp_handler env cep).new_max_age = none) := by
  unfold _forward_resp_handler
  rw [h1, if_pos rfl, h2, if_pos rfl, if_pos ⟨h3, h4⟩]
  constructor
  · intro ce hce
    rw [hce]
    exact ⟨rfl, rfl⟩
  · intro hce
    rw [hce]
    exact ⟨rfl, rfl⟩

/-! ### Claim C9 -/

/-- C9 (amended): the response handler invokes nanocoap_cache_process
exactly when the upstream outcome is a received response, the cache is
compiled in, and the response is not a 2.03 Valid arriving on a
non-validating slot; in particular a 2.03 Valid relayed for a
validating client IS handed to the cache's process, as is any
non-Valid response even when the slot is validating. -/
theorem c9_cache_process_condition (env : RespEnv) (cep : client_ep_t) :
    (_forward_resp_handler env cep).cache_processed = true ↔
      (env.memo_state = MemoState.resp ∧ env.cacheUsed = true ∧
        ¬(env.resp_code = COAP_CODE_VALID ∧ cep.validating = false)) := by
  unfold _forward_resp_handler
  by_cases h1 : env.memo_state = MemoState.resp
  · rw [if_pos h1]
    by_cases h2 : env.cacheUsed = true
    · rw [if_pos h2]
      by_cases h3 : env.resp_code = COAP_CODE_VALID ∧ cep.validating = false
      · rw [if_pos h3]
        cases hce : env.ce_lookup with
        | some ce => simp [h1, h2, h3]
        | none => simp [h1, h2, h3]
      · rw [if_neg h3]
        simp [h1, h2, h3]
    · rw [if_neg h2]
      simp [h1, h2]
  · rw [if_neg h1]
    simp [h1]

/-! ### Concrete scenarios: counterexamples and witnesses -/

/-- Scheme token of two characters: a strict prefix of coap. -/
def x2urip : uri_result_t := ⟨['c', 'o'], ['/', 'a'], none⟩

def x2env : ProcEnv :=
  { cacheUsed := false, now := 0, cache_key := [], ce_lookup := none,
    proxy_uri := Except.ok (), urip := some x2urip, is_absolute := true,
    endpoint_ok := true, memo_exists := false, send_result := 0 }

def x2pkt : CoapPkt := ⟨1, 1, [⟨35, [1]⟩], []⟩

/-- C2 counterexample: a matched, absolute request whose parsed scheme
token is the two characters c o — not the four characters coap — is
forwarded upstream (gcoap_req_send runs and the handler returns the
raw 0) instead of being answered with 5.05 Proxying Not Supported. -/
theorem c2_scheme_prefix_counterexample :
    x2urip.scheme ≠ coapChars ∧
    _request_matcher_forward_proxy x2env = true ∧
    (gcoap_forward_proxy_request_process x2env x2pkt 7 [zeroed_ep]).sent =
      true ∧
    (_forward_proxy_handler x2env x2pkt 7 [zeroed_ep]).1 =
      HandlerOut.raw 0 ∧
    (_forward_proxy_handler x2env x2pkt 7 [zeroed_ep]).1 ≠
      HandlerOut.resp COAP_CODE_PROXYING_NOT_SUPPORTED := by
  refine ⟨by decide, rfl, ?_, ?_, ?_⟩ <;> decide

def w2urip : uri_result_t := ⟨['h', 't', 't', 'p'], ['/', 'a'], none⟩

def w2env : ProcEnv :=
  { cacheUsed := false, now := 0, cache_key := [], ce_lookup := none,
    proxy_uri := Except.ok (), urip := some w2urip, is_absolute := true,
    endpoint_ok := true, memo_exists := false, send_result := 0 }

def w2pkt : CoapPkt := ⟨1, 1, [⟨35, [1]⟩], []⟩

theorem c2_scheme_prefix_amended_witness :
    (gcoap_forward_proxy_request_process w2env w2pkt 7 [zeroed_ep]).ret =
      0 - EPERM ∧
    (_forward_proxy_handler w2env w2pkt 7 [zeroed_ep]).1 =
      HandlerOut.resp COAP_CODE_PROXYING_NOT_SUPPORTED := by
  have h := (c2_scheme_prefix_amended w2env w2pkt 7 [zeroed_ep]
    [⟨true, false, 7, []⟩] 0 ⟨true, false, 7, []⟩ w2urip rfl rfl rfl rfl
    rfl).1 (by decide)
  exact ⟨h.1, h.2.2.1⟩

def w3ce : nanocoap_cache_entry_t := ⟨1, 100, 69, some [7], 8, [1, 2, 3]⟩

def w3env : ProcEnv :=
  { cacheUsed := true, now := 50, cache_key := [9], ce_lookup := some w3ce,
    proxy_uri := Except.ok (), urip := none, is_absolute := false,
    endpoint_ok := false, memo_exists := false, send_result := 0 }

def w3pkt : CoapPkt := ⟨1, 1, [⟨35, [1]⟩], []⟩

theorem c3_cache_hit_short_circuit_witness :
    0 < (gcoap_forward_proxy_request_process w3env w3pkt 7
      [zeroed_ep]).ret ∧
    (gcoap_forward_proxy_request_process w3env w3pkt 7 [zeroed_ep]).sent =
      false := by
  have h := c3_cache_hit_short_circuit w3env w3pkt 7 [zeroed_ep]
    [⟨true, false, 7, []⟩] 0 ⟨true, false, 7, []⟩ w3ce rfl rfl rfl rfl
    (by decide)
  exact ⟨h.2.1, h.2.2.2.1⟩

def w4ce : nanocoap_cache_entry_t := ⟨1, 100, 69, some [7], 8, [1, 2]⟩

def w4env : RespEnv :=
  { cacheUsed := true, memo_state := MemoState.resp, resp_code := 67,
    max_age_opt := some 120, now := 5, ce_lookup := some w4ce,
    req_method := 1 }

theorem c4_proxy_revalidation_witness :
    (_forward_resp_handler w4env ⟨true, false, 3, [9]⟩).new_max_age =
      some 125 ∧
    (_forward_resp_handler w4env ⟨true, false, 3, [9]⟩).dispatch =
      some (Dispatch.fromCache 69 [1, 2]) := by
  have h := (c4_proxy_revalidation w4env ⟨true, false, 3, [9]⟩
    rfl rfl rfl rfl).1 w4ce rfl
  exact ⟨h.1, h.2⟩

def w5urip : uri_result_t := ⟨['c', 'o', 'a', 'p'], ['/', 'a'], none⟩

def w5ce : nanocoap_cache_entry_t := ⟨1, 100, 69, some [7], 8, []⟩

theorem c5_outbound_etag_invariants_witness :
    (_gcoap_forward_proxy_copy_options true [⟨4, [9]⟩, ⟨35, [1]⟩] w5urip
      (some w5ce) false).validating = true := by
  exact (c5_outbound_etag_invariants true [⟨4, [9]⟩, ⟨35, [1]⟩] w5urip
    (some w5ce)).2.2.2.mpr ⟨⟨4, [9]⟩, by simp, rfl⟩

def w6urip : uri_result_t := ⟨['c', 'o', 'a', 'p'], ['/', 'a'], none⟩

def w6env : ProcEnv :=
  { cacheUsed := false, now := 0, cache_key := [], ce_lookup := none,
    proxy_uri := Except.ok (), urip := some w6urip, is_absolute := true,
    endpoint_ok := true, memo_exists := true, send_result := 0 }

def w6pkt : CoapPkt := ⟨1, 1, [⟨35, [1]⟩], []⟩

theorem c6_duplicate_request_suppressed_witness :
    (gcoap_forward_proxy_request_process w6env w6pkt 7 [zeroed_ep]).ret =
      0 ∧
    (gcoap_forward_proxy_request_process w6env w6pkt 7 [zeroed_ep]).sent =
      false := by
  have h := c6_duplicate_request_suppressed w6env w6pkt 7 [zeroed_ep]
    [⟨true, false, 7, []⟩] 0 ⟨true, false, 7, []⟩ w6urip rfl rfl rfl rfl
    rfl (by decide) rfl rfl
  exact ⟨h.1, h.2.1⟩

def x7env : ProcEnv :=
  { cacheUsed := false, now := 0, cache_key := [], ce_lookup := none,
    proxy_uri := Except.error (0 - ENOENT), urip := none,
    is_absolute := false, endpoint_ok := false, memo_exists := false,
    send_result := 0 }

def x7pkt : CoapPkt := ⟨1, 1, [], []⟩

/-- C7 counterexample: when coap_get_proxy_uri reports the option
missing (-ENOENT), the handler does not map the error to 4.02 Bad
Option: it hands the raw -ENOENT back to the engine.  The claim's
parenthetical — that the handler maps the request-processing error to
4.02 in the missing case too — is therefore false (that case is also
unreachable for matched requests, see the amended theorem). -/
theorem c7_missing_not_mapped_counterexample :
    (_forward_proxy_handler x7env x7pkt 7 [zeroed_ep]).1 =
      HandlerOut.raw (0 - ENOENT) ∧
    (_forward_proxy_handler x7env x7pkt 7 [zeroed_ep]).1 ≠
      HandlerOut.resp COAP_CODE_BAD_OPTION := by
  constructor <;> decide

def w7env : ProcEnv :=
  { cacheUsed := false, now := 0, cache_key := [], ce_lookup := none,
    proxy_uri := Except.ok (), urip := none, is_absolute := false,
    endpoint_ok := false, memo_exists := false, send_result := 0 }

def w7pkt : CoapPkt := ⟨1, 1, [⟨35, [1]⟩], []⟩

theorem c7_bad_option_amended_witness :
    (gcoap_forward_proxy_request_process w7env w7pkt 7 [zeroed_ep]).ret =
      0 - EINVAL ∧
    (_forward_proxy_handler w7env w7pkt 7 [zeroed_ep]).1 =
      HandlerOut.resp COAP_CODE_BAD_OPTION := by
  have h := (c7_bad_option_amended w7env w7pkt 7 [zeroed_ep]
    [⟨true, false, 7, []⟩] 0 ⟨true, false, 7, []⟩ rfl rfl rfl).2
    (Or.inl rfl)
  exact ⟨h.1, h.2.2.1⟩

def w8env : ProcEnv :=
  { cacheUsed := false, now := 0, cache_key := [], ce_lookup := none,
    proxy_uri := Except.ok (), urip := none, is_absolute := false,
    endpoint_ok := false, memo_exists := false, send_result := 0 }

def w8pkt : CoapPkt := ⟨1, 0, [], []⟩

theorem c8_slot_allocation_witness :
    _allocate_client_ep [⟨true, true, 5, [1]⟩, ⟨false, false, 0, [2]⟩] 9 =
      some ([⟨true, true, 5, [1]⟩, ⟨true, false, 9, [2]⟩], 1,
            ⟨true, false, 9, [2]⟩) ∧
    _allocate_client_ep [⟨true, false, 5, []⟩] 9 = none := by
  constructor
  · exact (c8_slot_allocation
      [⟨true, true, 5, [1]⟩, ⟨false, false, 0, [2]⟩] 9 w8env w8pkt).1
      1 ⟨false, false, 0, [2]⟩ rfl rfl
      (fun k c hk hc => by
        have hk0 : k = 0 := by omega
        subst hk0
        simp only [List.getElem?_cons_zero, Option.some.injEq] at hc
        subst hc
        rfl)
  · exact ((c8_slot_allocation [⟨true, false, 5, []⟩] 9 w8env w8pkt).2
      (fun cep hc => by
        simp only [List.mem_singleton] at hc
        subst hc
        rfl)).1

def x9env : RespEnv :=
  { cacheUsed := true, memo_state := MemoState.resp, resp_code := 67,
    max_age_opt := none, now := 5, ce_lookup := none, req_method := 1 }

/-- C9 counterexample: a 2.03 Valid (code 67) received for a slot whose
validating flag is true — a client-initiated revalidation — IS passed
to nanocoap_cache_process, where the claim says the cache's process is
invoked only when the response is not 2.03 Valid and validating is
false. -/
theorem c9_valid_validating_counterexample :
    x9env.resp_code = COAP_CODE_VALID ∧
    (⟨true, true, 3, [9]⟩ : client_ep_t).validating = true ∧
    (_forward_resp_handler x9env
      ⟨true, true, 3, [9]⟩).cache_processed = true := by
  refine ⟨rfl, rfl, ?_⟩
  decide

def w9env : RespEnv :=
  { cacheUsed := true, memo_state := MemoState.resp, resp_code := 69,
    max_age_opt := none, now := 5, ce_lookup := none, req_method := 1 }

theorem c9_cache_process_condition_witness :
    (_forward_resp_handler w9env zeroed_ep).cache_processed = true := by
  exact (c9_cache_process_condition w9env zeroed_ep).mpr
    ⟨rfl, rfl, by decide⟩

def w10urip : uri_result_t := ⟨['c', 'o', 'a', 'p'], ['/', 'a'], none⟩

def w10env : ProcEnv :=
  { cacheUsed := false, now := 0, cache_key := [], ce_lookup := none,
    proxy_uri := Except.ok (), urip := some w10urip, is_absolute := true,
    endpoint_ok := true, memo_exists := false, send_result := -5 }

def w10pkt : CoapPkt := ⟨1, 1, [⟨35, [1]⟩], []⟩

theorem c10_send_result_paths_witness :
    (gcoap_forward_proxy_request_process w10env w10pkt 7 [zeroed_ep]).ret =
      0 - EINVAL ∧
    (_forward_proxy_handler w10env w10pkt 7 [zeroed_ep]).1 =
      HandlerOut.resp COAP_CODE_BAD_OPTION := by
  have h := (c10_send_result_paths w10env w10pkt 7 [zeroed_ep]
    [⟨true, false, 7, []⟩] 0 ⟨true, false, 7, []⟩ w10urip rfl rfl rfl rfl
    rfl (by decide) rfl rfl).1 (by decide)
  exact ⟨h.1, h.2.1⟩

end ForwardProxy
